import Mathlib

/-!
Shallow embedding of the bundle submission and inclusion-tracking engine in
src/script/run_attack.py (classes FlashbotsManager and ZKarnage, plus the
module-level main).  Network and chain interactions are modelled by explicit
environment parameters: an HTTP exchange is either a raised exception (any
step inside the corresponding Python try-block raising) or a response with an
HTTP status, a raw body text and the value json.loads would produce on that
body.  Parsed relay responses are modelled as records whose optional fields
are exactly the keys the code reads with .get.
-/

namespace ZKarnage

/-- Python truthiness of an optional JSON string field: None (absent) and the
empty string are falsy, every other string is truthy. -/
def pyTruthy : Option String → Bool
  | none => false
  | some s => s != ""

/-- Python `x or d` for an optional integer: None and 0 are falsy and fall
through to the default. -/
def pyOrNat : Option Nat → Nat → Nat
  | none, d => d
  | some 0, d => d
  | some (n + 1), _ => n + 1

/-- Python str.lower() (ASCII lowering, as used on hex hashes/addresses),
as a character-wise map over the string's characters. -/
def pyLower (s : String) : String := String.mk (s.data.map Char.toLower)

/-- One per-transaction entry of an eth_callBundle simulation result: the
optional "error" and "revert" fields the code inspects. -/
structure TxSimResult where
  error : Option String
  revert : Option String
deriving Repr, DecidableEq

/-- The "result" object of a parsed relay JSON-RPC response, restricted to the
keys read by the embedded operations. -/
structure RpcResultBody where
  totalGasUsed : Option Nat
  results : Option (List TxSimResult)
  bundleHash : Option String
deriving Repr, DecidableEq

/-- A parsed relay JSON-RPC response: the optional top-level "result" object. -/
structure RpcResponse where
  result : Option RpcResultBody
deriving Repr, DecidableEq

/-- What the code observes from one HTTP POST to the relay, from inside its
try-block: either some step raised (transport failure, or a conversion in the
body such as json.loads or a value cast raising), or a response arrived with
an HTTP status, the raw body text, and the outcome of parsing that body. -/
inductive HttpOutcome where
  | exn (msg : String)
  | resp (status : Nat) (text : String) (parsed : Except String RpcResponse)

/-- The lookup `result.get('result', {}).get('results', [])` in
simulate_bundle. -/
def bundleResults (r : RpcResponse) : List TxSimResult :=
  match r.result with
  | none => []
  | some b => b.results.getD []

/-- The lookup `result.get('result', {}).get('bundleHash')` in submit_bundle
and execute_attack. -/
def bundleHashOf (r : RpcResponse) : Option String :=
  match r.result with
  | none => none
  | some b => b.bundleHash

/-- The dictionary simulate_bundle returns.  The failure paths carry
success=False and an error string; the parsed path carries the computed
success flag, the "result" object as details and the whole parsed response. -/
structure SimResult where
  success : Bool
  error : Option String
  details : Option RpcResultBody
  raw_result : Option RpcResponse
deriving Repr, DecidableEq

/-- Body of FlashbotsManager.simulate_bundle inside its try-block
(run_attack.py lines 117-191).  An empty bundle raises IndexError at the
debug log of hex_txs[0]; a non-200 status returns success=False with the raw
body as error; otherwise success is the conjunction, over the per-transaction
results, of "neither the error nor the revert field is truthy". -/
def simulate_bundle_body (bundle : List String) (net : HttpOutcome) :
    Except String SimResult :=
  if bundle.isEmpty then
    .error "IndexError: list index out of range"
  else
    match net with
    | .exn m => .error m
    | .resp status text parsed =>
      if status != 200 then
        .ok { success := false, error := some text, details := none, raw_result := none }
      else
        match parsed with
        | .error m => .error m
        | .ok r =>
          .ok { success := (bundleResults r).all fun res =>
                  !(pyTruthy res.error || pyTruthy res.revert),
                error := none, details := r.result, raw_result := some r }

/-- FlashbotsManager.simulate_bundle (lines 100-196): the body wrapped in
try/except, the handler returning success=False with the exception text. -/
def simulate_bundle (bundle : List String) (net : HttpOutcome) : SimResult :=
  match simulate_bundle_body bundle net with
  | .ok r => r
  | .error e => { success := false, error := some e, details := none, raw_result := none }

/-- The params object built by submit_bundle (lines 227-238): `now` stands for
int(time.time()) at submission; minTimestamp is `min_timestamp or 0` and
maxTimestamp is `max_timestamp or int(time.time()) + 420`. -/
structure BundleParams where
  blockNumber : Nat
  minTimestamp : Nat
  maxTimestamp : Nat
deriving Repr, DecidableEq

def submit_params (target_block now : Nat)
    (min_timestamp max_timestamp : Option Nat) : BundleParams :=
  { blockNumber := target_block
    minTimestamp := pyOrNat min_timestamp 0
    maxTimestamp := pyOrNat max_timestamp (now + 420) }

/-- The dictionary submit_bundle returns on success. -/
structure SubmitResult where
  bundle_hash : String
  raw_result : RpcResponse
deriving Repr, DecidableEq

/-- Body of FlashbotsManager.submit_bundle inside its try-block (lines
217-287): an empty bundle raises IndexError at the hex_txs[0] debug log; a
non-200 status returns None; a parsed response returns the bundle hash
dictionary when the bundleHash field is truthy and None otherwise. -/
def submit_bundle_body (bundle : List String) (net : HttpOutcome) :
    Except String (Option SubmitResult) :=
  if bundle.isEmpty then
    .error "IndexError: list index out of range"
  else
    match net with
    | .exn m => .error m
    | .resp status _text parsed =>
      if status != 200 then
        .ok none
      else
        match parsed with
        | .error m => .error m
        | .ok r =>
          if pyTruthy (bundleHashOf r) then
            .ok (some { bundle_hash := (bundleHashOf r).getD "", raw_result := r })
          else
            .ok none

/-- FlashbotsManager.submit_bundle (lines 198-292): the body wrapped in
try/except, the handler returning None. -/
def submit_bundle (bundle : List String) (net : HttpOutcome) : Option SubmitResult :=
  match submit_bundle_body bundle net with
  | .ok v => v
  | .error _ => none

/-- Return value of the two status/stats operations: either the soft error
dictionary with success=False and an error string, or the parsed relay
response returned as-is. -/
inductive StatusReturn where
  | softError (error : String)
  | result (r : RpcResponse)
deriving Repr, DecidableEq

/-- FlashbotsManager.check_flashbots_status (lines 294-383): a missing target
block returns the soft error before any network step; otherwise the request
runs and exceptions, non-200 statuses and parse failures all return the soft
error dictionary, while a parsed response is returned directly. -/
def check_flashbots_status (target_block : Option Nat) (net : HttpOutcome) :
    StatusReturn :=
  match target_block with
  | none => .softError "Target block is required"
  | some _ =>
    match net with
    | .exn m => .softError m
    | .resp status text parsed =>
      if status != 200 then
        .softError text
      else
        match parsed with
        | .error m => .softError m
        | .ok r => .result r

/-- FlashbotsManager.check_user_stats (lines 385-468): a missing block number
is replaced by the chain head (`is None` test, so 0 is kept); exceptions,
non-200 statuses and parse failures return the soft error dictionary. -/
def check_user_stats (block_number : Option Nat) (chain_head : Nat)
    (net : HttpOutcome) : StatusReturn :=
  let _bn : Nat :=
    match block_number with
    | none => chain_head
    | some b => b
  match net with
  | .exn m => .softError m
  | .resp status text parsed =>
    if status != 200 then
      .softError text
    else
      match parsed with
      | .error m => .softError m
      | .ok r => .result r

/-- A transaction of the fetched target block, identified by its hash (the
code normalizes it to a hex string before comparing). -/
structure BlockTx where
  hash : String
deriving Repr, DecidableEq

/-- A transaction receipt as read by check_bundle_status: the optional "from"
field (read with receipt.get('from', '')) and the status code. -/
structure Receipt where
  sender : Option String
  status : Nat
deriving Repr, DecidableEq

/-- Outcome of w3.eth.get_transaction_receipt for one hash inside the per-
transaction try: either it raised (logged and skipped) or it returned a
possibly-falsy receipt. -/
inductive ReceiptOutcome where
  | exn (msg : String)
  | ok (r : Option Receipt)
deriving Repr, DecidableEq

/-- The per-transaction hash test of check_bundle_status (line 667):
`tx_hash and tx_hash_current.lower() == tx_hash.lower()`. -/
def hashMatches (tx_hash : Option String) (current : String) : Bool :=
  pyTruthy tx_hash && (pyLower current == pyLower (tx_hash.getD ""))

/-- The scan over the target block's transactions (lines 662-681): a hash
match returns True immediately; otherwise the receipt is fetched and, when
its "from" field matches the attacking account, the scan returns
(receipt.status == 1); receipt errors and falsy receipts are skipped.  `none`
means the loop finished without an early return. -/
def scanBlockTxs (tx_hash : Option String) (account : String)
    (getReceipt : String → ReceiptOutcome) : List BlockTx → Option Bool
  | [] => none
  | tx :: rest =>
    if hashMatches tx_hash tx.hash then
      some true
    else
      match getReceipt tx.hash with
      | .exn _ => scanBlockTxs tx_hash account getReceipt rest
      | .ok none => scanBlockTxs tx_hash account getReceipt rest
      | .ok (some r) =>
        if pyLower (r.sender.getD "") == pyLower account then
          some (r.status == 1)
        else
          scanBlockTxs tx_hash account getReceipt rest

/-- ZKarnage.check_bundle_status (lines 589-715) from the point the target
block is available (the real-time waiting loop above it only logs and
sleeps).  After the block scan, when a transaction hash was supplied, the
transaction-status API is consulted and "INCLUDED" counts as success; the
final relay status check only logs, and the function then returns False.
`api_status` is the "status" field of check_transaction_status's reply. -/
def check_bundle_status (txs : List BlockTx) (tx_hash : Option String)
    (account : String) (getReceipt : String → ReceiptOutcome)
    (api_status : String) : Bool :=
  match scanBlockTxs tx_hash account getReceipt txs with
  | some b => b
  | none =>
    if pyTruthy tx_hash && (api_status == "INCLUDED") then true else false

/-- The lookup `sim_result.get('raw_result', {}).get('result',
{}).get('bundleHash')` in execute_attack (line 800). -/
def simRawBundleHash (sim : SimResult) : Option String :=
  match sim.raw_result with
  | none => none
  | some r => bundleHashOf r

/-- The three ways one attempt of execute_attack can end after simulation. -/
inductive AttemptOutcome where
  | abortedBeforeSubmit
  | submitFailed
  | tracked (included : Bool)
deriving Repr, DecidableEq

/-- The control flow of ZKarnage.execute_attack after the simulation call
(lines 786-876): a failed simulation aborts before submit_bundle unless the
raw simulation result carries a truthy bundleHash; a None submission returns
False; otherwise the attempt's result is the inclusion verdict. -/
def execute_attack_flow (sim : SimResult) (submission : Option SubmitResult)
    (included : Bool) : AttemptOutcome :=
  if !sim.success && !(pyTruthy (simRawBundleHash sim)) then
    .abortedBeforeSubmit
  else
    match submission with
    | none => .submitFailed
    | some _ => .tracked included

/-- The boolean execute_attack returns for each outcome. -/
def attempt_result : AttemptOutcome → Bool
  | .abortedBeforeSubmit => false
  | .submitFailed => false
  | .tracked b => b

/-- The arithmetic of ZKarnage.get_next_hundred_block's return expression
(line 587): `current + (100 - (current % 100))`. -/
def next_hundred (current : Nat) : Nat := current + (100 - current % 100)

/-- ZKarnage.get_next_hundred_block (lines 576-587): the argument passes
through Python `or`, so both None and 0 fall back to the chain head. -/
def get_next_hundred_block (current_block : Option Nat) (chain_head : Nat) : Nat :=
  next_hundred (pyOrNat current_block chain_head)

/-- The target chosen by execute_attack in hundred-boundary, non-fast mode
(line 739): get_next_hundred_block applied to the chain head observed at
attempt k (the fallback re-reads the same head). -/
def attempt_target (chain_head_at : Nat → Nat) (k : Nat) : Nat :=
  get_next_hundred_block (some (chain_head_at k)) (chain_head_at k)

/-- The continuous-mode loop of main (lines 1022-1048): attempt k runs
execute_attack and on success main returns exit code 0; on failure the loop
sleeps and continues with attempt k+1, without bound.  `fuel` is the number
of iterations unfolded; `none` means the loop is still running after them. -/
def main_loop (outcome : Nat → Bool) : Nat → Nat → Option Nat
  | 0, _ => none
  | fuel + 1, k => if outcome k then some 0 else main_loop outcome fuel (k + 1)

/-- Web3.to_wei(n, 'gwei'). -/
def gwei (n : Nat) : Nat := n * 1000000000

/-- The transaction dictionary built by _prepare_attack_transaction,
restricted to its numeric fields (the address and call-data fields are
constants not involved in any claim). -/
structure AttackTx where
  txType : Nat
  gas : Nat
  value : Nat
  maxFeePerGas : Nat
  maxPriorityFeePerGas : Nat
  nonce : Nat
  chainId : Nat
deriving Repr, DecidableEq

/-- ZKarnage._prepare_attack_transaction (lines 883-970), fee computation and
transaction assembly: high-priority accounts get a 5 gwei priority fee and
base fee + 10 gwei max fee, others 15 gwei and base fee + 20 gwei.  The
function returns the transaction unconditionally: the source contains no
validation of maxFee against maxPriorityFee and defines no
InvalidFeeConfiguration error anywhere. -/
def prepare_attack_transaction (base_fee : Nat) (is_high_priority : Bool)
    (nonce chainId : Nat) : AttackTx :=
  let max_priority_fee : Nat := if is_high_priority then gwei 5 else gwei 15
  let max_fee_per_gas : Nat :=
    if is_high_priority then base_fee + gwei 10 else base_fee + gwei 20
  { txType := 2
    gas := 500000
    value := 0
    maxFeePerGas := max_fee_per_gas
    maxPriorityFeePerGas := max_priority_fee
    nonce := nonce
    chainId := chainId }

/-! Concrete environments used to evaluate the embedded operations. -/

/-- A receipt oracle for a chain state where the block's only transaction
"0xab" is from the attacking account and reverted (status 0). -/
def c1Receipt : String → ReceiptOutcome := fun h =>
  if h == "0xab" then .ok (some { sender := some "0xme", status := 0 }) else .ok none

/-- A receipt oracle where every receipt is from the attacking account (upper-
cased spelling, exercising the .lower() normalization) with status 1. -/
def c1wReceipt : String → ReceiptOutcome :=
  fun _ => .ok (some { sender := some "0xME", status := 1 })

/-- A parsed simulation response whose first per-transaction result reverts
while the second is clean. -/
def c3Resp : RpcResponse :=
  { result := some
      { totalGasUsed := some 21000
        results := some
          [ { error := some "execution reverted", revert := some "0xdead" },
            { error := none, revert := none } ]
        bundleHash := none } }

/-- A failed simulation result whose raw response still carries a bundleHash. -/
def c4Sim : SimResult :=
  { success := false, error := none, details := none,
    raw_result := some
      { result := some { totalGasUsed := none, results := none, bundleHash := some "0xfeed" } } }

/-- A failed simulation result with no raw response at all. -/
def c4SimNoHash : SimResult :=
  { success := false, error := some "sim failed", details := none, raw_result := none }

/-- Chain heads observed at attempts 1 and 2 of the continuous-mode loop: the
head advanced past the first hundred-boundary between the attempts. -/
def c5Blocks : Nat → Nat := fun k => if k = 1 then 12345 else 12401

/-- A parsed submission response carrying a bundleHash. -/
def c8Resp : RpcResponse :=
  { result := some { totalGasUsed := none, results := none, bundleHash := some "0xbeef" } }

/-! Theorems settling the claims. -/

/-- Helper for C1: when no transaction of the block matches the supplied
transaction hash, an early return of the block scan can only come from a
receipt whose "from" field matches the account, and the returned boolean is
exactly (receipt.status == 1). -/
theorem scan_no_hash_sender_spec (tx_hash : Option String) (account : String)
    (getReceipt : String → ReceiptOutcome) :
    ∀ (txs : List BlockTx) (b : Bool),
      (∀ tx ∈ txs, hashMatches tx_hash tx.hash = false) →
      scanBlockTxs tx_hash account getReceipt txs = some b →
      ∃ tx ∈ txs, ∃ r : Receipt,
        getReceipt tx.hash = .ok (some r) ∧
        (pyLower (r.sender.getD "") == pyLower account) = true ∧
        b = (r.status == 1) := by
  intro txs
  induction txs with
  | nil => intro b _ hfound; simp [scanBlockTxs] at hfound
  | cons tx rest ih =>
    intro b hnohash hfound
    have hhead : hashMatches tx_hash tx.hash = false := hnohash tx (by simp)
    have htail : ∀ t ∈ rest, hashMatches tx_hash t.hash = false :=
      fun t ht => hnohash t (by simp [ht])
    simp only [scanBlockTxs, hhead, Bool.false_eq_true, if_false] at hfound
    split at hfound
    · obtain ⟨t, ht, hres⟩ := ih b htail hfound
      exact ⟨t, by simp [ht], hres⟩
    · obtain ⟨t, ht, hres⟩ := ih b htail hfound
      exact ⟨t, by simp [ht], hres⟩
    · next r hrec =>
      split at hfound
      · next hs =>
        refine ⟨tx, by simp, r, hrec, hs, ?_⟩
        exact (Option.some_inj.mp hfound).symm
      · obtain ⟨t, ht, hres⟩ := ih b htail hfound
        exact ⟨t, by simp [ht], hres⟩

/-- C1 (amended): when no transaction of the target block matches the supplied
transaction hash, the inclusion tracker's verdict for a transaction matched by
sender address equals (receipt.status == 1): whatever boolean the block scan
produces comes from a receipt whose "from" field matches the attacking
account, equals (receipt.status == 1) for that receipt, and is returned by
check_bundle_status unchanged.  (Matches on the supplied transaction hash
itself return true on mere presence, which is what the counterexample shows.) -/
theorem c1_amended (txs : List BlockTx) (tx_hash : Option String)
    (account : String) (getReceipt : String → ReceiptOutcome)
    (api_status : String) (b : Bool)
    (hnohash : ∀ tx ∈ txs, hashMatches tx_hash tx.hash = false)
    (hfound : scanBlockTxs tx_hash account getReceipt txs = some b) :
    check_bundle_status txs tx_hash account getReceipt api_status = b ∧
    ∃ tx ∈ txs, ∃ r : Receipt,
      getReceipt tx.hash = .ok (some r) ∧
      (pyLower (r.sender.getD "") == pyLower account) = true ∧
      b = (r.status == 1) := by
  refine ⟨?_, scan_no_hash_sender_spec tx_hash account getReceipt txs b hnohash hfound⟩
  simp [check_bundle_status, hfound]

/-- Witness for C1 (amended) at a concrete chain state: the block's only
transaction "0xcd" does not match the supplied hash "0xab"; its receipt is
from the account (status 1), so the tracker returns true. -/
theorem c1_witness :
    check_bundle_status [{ hash := "0xcd" }] (some "0xab") "0xme" c1wReceipt "UNKNOWN" = true ∧
    ∃ tx ∈ [({ hash := "0xcd" } : BlockTx)], ∃ r : Receipt,
      c1wReceipt tx.hash = .ok (some r) ∧
      (pyLower (r.sender.getD "") == pyLower "0xme") = true ∧
      true = (r.status == 1) :=
  c1_amended [{ hash := "0xcd" }] (some "0xab") "0xme" c1wReceipt "UNKNOWN" true
    (by decide) (by decide)

/-- Counterexample to C1 as stated: the target block's only transaction
matches the supplied transaction hash, its receipt is from the attacking
account with status 0 (present but reverted), yet check_bundle_status
returns true — the returned boolean does not equal (receipt.status == 1). -/
theorem c1_counterexample :
    check_bundle_status [{ hash := "0xab" }] (some "0xab") "0xme" c1Receipt "UNKNOWN" = true ∧
    c1Receipt "0xab" = .ok (some { sender := some "0xme", status := 0 }) ∧
    ({ sender := some "0xme", status := 0 } : Receipt).status ≠ 1 := by
  refine ⟨by decide, rfl, by decide⟩

/-- Helper for C2: Python `or` keeps a positive argument. -/
theorem pyOrNat_of_pos (n d : Nat) (h : 1 ≤ n) : pyOrNat (some n) d = n := by
  match n, h with
  | _ + 1, _ => rfl

/-- C2 (amended): for every positive current block number c, hundred-boundary
scheduling returns c + (100 - c mod 100), which is strictly greater than c,
divisible by 100, and equal to c + 100 when c is itself a boundary; 12345
yields 12400.  When 0 is passed, Python `or` treats the argument as absent and
the formula is applied to the chain head instead. -/
theorem c2_amended (c chain : Nat) (hc : 1 ≤ c) :
    get_next_hundred_block (some c) chain = c + (100 - c % 100) ∧
    c < get_next_hundred_block (some c) chain ∧
    get_next_hundred_block (some c) chain % 100 = 0 ∧
    (c % 100 = 0 → get_next_hundred_block (some c) chain = c + 100) ∧
    get_next_hundred_block (some 12345) chain = 12400 ∧
    get_next_hundred_block (some 0) chain = next_hundred chain := by
  have hp : pyOrNat (some c) chain = c := pyOrNat_of_pos c chain hc
  have hp2 : pyOrNat (some 12345) chain = 12345 := pyOrNat_of_pos 12345 chain (by decide)
  have h1 : get_next_hundred_block (some c) chain = c + (100 - c % 100) := by
    simp only [get_next_hundred_block, next_hundred, hp]
  refine ⟨h1, ?_, ?_, ?_, ?_, rfl⟩
  · rw [h1]; omega
  · rw [h1]; omega
  · intro h0; rw [h1]; omega
  · simp only [get_next_hundred_block, next_hundred, hp2]

/-- Witness for C2 (amended) at current block 12345. -/
theorem c2_witness :
    get_next_hundred_block (some 12345) 12345 = 12345 + (100 - 12345 % 100) ∧
    12345 < get_next_hundred_block (some 12345) 12345 ∧
    get_next_hundred_block (some 12345) 12345 % 100 = 0 ∧
    (12345 % 100 = 0 → get_next_hundred_block (some 12345) 12345 = 12345 + 100) ∧
    get_next_hundred_block (some 12345) 12345 = 12400 ∧
    get_next_hundred_block (some 0) 12345 = next_hundred 12345 :=
  c2_amended 12345 12345 (by decide)

/-- Counterexample to C2 as stated: at current block 0 (with the chain head at
250) the function returns 300, not 0 + (100 - 0 mod 100) = 100, because
Python's `or` treats the argument 0 as absent. -/
theorem c2_counterexample :
    get_next_hundred_block (some 0) 250 = 300 ∧
    get_next_hundred_block (some 0) 250 ≠ 0 + (100 - 0 % 100) := by
  refine ⟨by decide, by decide⟩

/-- C3: for every parsed simulation response, a non-200 HTTP status yields
success = false, and on a 200 status the returned success flag is true exactly
when no per-transaction result carries an error or revert field (a field being
carried meaning its value is Python-truthy, i.e. a non-empty string, which is
the check `not (res.get('error') or res.get('revert'))` performs); hence one
failing transaction voids the bundle's simulated success. -/
theorem c3_simulation_success (bundle : List String) (hb : bundle ≠ [])
    (status : Nat) (text : String) (r : RpcResponse) :
    (status ≠ 200 → (simulate_bundle bundle (.resp status text (.ok r))).success = false) ∧
    (status = 200 →
      ((simulate_bundle bundle (.resp status text (.ok r))).success = true ↔
        ∀ res ∈ bundleResults r, pyTruthy res.error = false ∧ pyTruthy res.revert = false)) := by
  obtain ⟨a, l, rfl⟩ : ∃ a l, bundle = a :: l := by
    cases bundle with
    | nil => exact absurd rfl hb
    | cons a l => exact ⟨a, l, rfl⟩
  constructor
  · intro hs
    have hsb : (status == 200) = false := by simp [hs]
    simp [simulate_bundle, simulate_bundle_body, bne, hsb]
  · intro hs
    subst hs
    simp [simulate_bundle, simulate_bundle_body, List.all_eq_true]

/-- Witness for C3 on a concrete 200 response whose first transaction result
reverts: the equivalence instantiates with both sides false. -/
theorem c3_witness :
    (simulate_bundle ["0xaa"] (.resp 200 "" (.ok c3Resp))).success = true ↔
      ∀ res ∈ bundleResults c3Resp, pyTruthy res.error = false ∧ pyTruthy res.revert = false :=
  (c3_simulation_success ["0xaa"] (by decide) 200 "" c3Resp).2 rfl

/-- C4: when the simulation result's success flag is false, the attempt aborts
before submission (returning failure) exactly unless the raw simulation
result carries a (truthy) bundleHash, in which case the flow proceeds to the
submission step. -/
theorem c4_abort_unless_hash (sim : SimResult) (submission : Option SubmitResult)
    (included : Bool) (hfail : sim.success = false) :
    (pyTruthy (simRawBundleHash sim) = false →
      execute_attack_flow sim submission included = .abortedBeforeSubmit ∧
      attempt_result (execute_attack_flow sim submission included) = false) ∧
    (pyTruthy (simRawBundleHash sim) = true →
      execute_attack_flow sim submission included ≠ .abortedBeforeSubmit ∧
      execute_attack_flow sim submission included =
        (match submission with
          | none => .submitFailed
          | some _ => .tracked included)) := by
  constructor
  · intro hh
    simp [execute_attack_flow, hfail, hh, attempt_result]
  · intro hh
    cases submission <;> simp [execute_attack_flow, hfail, hh]

/-- Witness for C4: a failed simulation without a bundle hash aborts before
submission with result false; a failed simulation whose raw result carries
bundleHash "0xfeed" does not abort. -/
theorem c4_witness :
    (execute_attack_flow c4SimNoHash (some { bundle_hash := "0xbeef", raw_result := c8Resp }) true =
        .abortedBeforeSubmit ∧
      attempt_result (execute_attack_flow c4SimNoHash
        (some { bundle_hash := "0xbeef", raw_result := c8Resp }) true) = false) ∧
    execute_attack_flow c4Sim none false ≠ .abortedBeforeSubmit :=
  ⟨(c4_abort_unless_hash c4SimNoHash (some { bundle_hash := "0xbeef", raw_result := c8Resp })
      true rfl).1 rfl,
    ((c4_abort_unless_hash c4Sim none false rfl).2 rfl).1⟩

/-- C5 (amended): the continuous hundred-boundary mode of main retries without
bound: the loop only ever returns exit code 0 (on the first successful
attempt), it never terminates while attempts keep failing (in particular it
does not stop after three), and each attempt's target is recomputed as the
next hundred-boundary of the chain head observed at that attempt, not as the
previous target plus one. -/
theorem c5_amended (outcome : Nat → Bool) (chain_head_at : Nat → Nat) :
    (∀ fuel k r, main_loop outcome fuel k = some r → r = 0) ∧
    ((∀ j, outcome j = false) → ∀ fuel k, main_loop outcome fuel k = none) ∧
    (∀ k, attempt_target chain_head_at k =
      chain_head_at k + (100 - chain_head_at k % 100)) := by
  refine ⟨?_, ?_, ?_⟩
  · intro fuel
    induction fuel with
    | zero => intro k r h; simp [main_loop] at h
    | succ n ih =>
      intro k r h
      by_cases ho : outcome k = true
      · simp [main_loop, ho] at h
        omega
      · simp only [main_loop, ho, Bool.false_eq_true, if_false] at h
        · exact ih (k + 1) r h
  · intro hall fuel
    induction fuel with
    | zero => intro k; rfl
    | succ n ih =>
      intro k
      simp only [main_loop, hall k, Bool.false_eq_true, if_false]
      exact ih (k + 1)
  · intro k
    simp only [attempt_target, get_next_hundred_block, next_hundred]
    cases h : chain_head_at k with
    | zero => simp [pyOrNat]
    | succ m => simp [pyOrNat]

/-- Witness for C5 (amended): with every attempt failing, five unfolded
iterations still leave the loop running; a concrete attempt target follows
the hundred-boundary formula. -/
theorem c5_witness :
    main_loop (fun _ => false) 5 1 = none ∧
    attempt_target (fun _ => 7) 1 = 7 + (100 - 7 % 100) :=
  ⟨(c5_amended (fun _ => false) (fun _ => 7)).2.1 (fun _ => rfl) 5 1,
    (c5_amended (fun _ => false) (fun _ => 7)).2.2 1⟩

/-- Counterexample to C5 as stated: with the first three attempts failing, the
loop performs a fourth attempt (which can succeed, returning 0) instead of
terminating with failure after the third — after ten failing attempts it is
still running — and between two consecutive attempts with chain heads 12345
and 12401 the targets are 12400 and 12500: the target advances by 100, not by
exactly one. -/
theorem c5_counterexample :
    main_loop (fun k => k == 4) 4 1 = some 0 ∧
    main_loop (fun _ => false) 10 1 = none ∧
    attempt_target c5Blocks 1 = 12400 ∧
    attempt_target c5Blocks 2 = 12500 := by
  refine ⟨by decide, by decide, by decide, by decide⟩

/-- C6: for every base fee, the high-priority branch sets a 5 gwei priority
fee and base fee + 10 gwei max fee, the standard branch 15 gwei and base fee
+ 20 gwei, and in both branches maxFeePerGas >= maxPriorityFeePerGas. -/
theorem c6_fee_policy (base_fee nonce chainId : Nat) :
    (prepare_attack_transaction base_fee true nonce chainId).maxPriorityFeePerGas = gwei 5 ∧
    (prepare_attack_transaction base_fee true nonce chainId).maxFeePerGas = base_fee + gwei 10 ∧
    (prepare_attack_transaction base_fee false nonce chainId).maxPriorityFeePerGas = gwei 15 ∧
    (prepare_attack_transaction base_fee false nonce chainId).maxFeePerGas = base_fee + gwei 20 ∧
    ∀ flag : Bool,
      (prepare_attack_transaction base_fee flag nonce chainId).maxPriorityFeePerGas ≤
        (prepare_attack_transaction base_fee flag nonce chainId).maxFeePerGas := by
  have e1 : (prepare_attack_transaction base_fee true nonce chainId).maxPriorityFeePerGas =
      gwei 5 := by simp [prepare_attack_transaction]
  have e2 : (prepare_attack_transaction base_fee true nonce chainId).maxFeePerGas =
      base_fee + gwei 10 := by simp [prepare_attack_transaction]
  have e3 : (prepare_attack_transaction base_fee false nonce chainId).maxPriorityFeePerGas =
      gwei 15 := by simp [prepare_attack_transaction]
  have e4 : (prepare_attack_transaction base_fee false nonce chainId).maxFeePerGas =
      base_fee + gwei 20 := by simp [prepare_attack_transaction]
  refine ⟨e1, e2, e3, e4, ?_⟩
  intro flag
  cases flag
  · rw [e3, e4]
    exact le_trans (by decide : gwei 15 ≤ gwei 20) (Nat.le_add_left (gwei 20) base_fee)
  · rw [e1, e2]
    exact le_trans (by decide : gwei 5 ≤ gwei 10) (Nat.le_add_left (gwei 10) base_fee)

/-- C7: evaluation of the transaction builder at a concrete input.  The
builder returns the transaction unconditionally — its return type carries no
error alternative, mirroring the source, which contains no validation of
maxFee against maxPriorityFee and defines no InvalidFeeConfiguration error
anywhere (the invariant happens to hold by construction, see c6_fee_policy's
last conjunct). -/
theorem c7_no_defensive_validation :
    prepare_attack_transaction 0 false 7 1 =
      { txType := 2, gas := 500000, value := 0, maxFeePerGas := gwei 20,
        maxPriorityFeePerGas := gwei 15, nonce := 7, chainId := 1 } := by
  simp [prepare_attack_transaction, gwei]

/-- C8: when the caller does not specify maxTimestamp, the submitted bundle's
maxTimestamp is the submission-time clock value plus 420 seconds, and an
unspecified minTimestamp becomes 0; submission returns None on a non-200
status, returns None when a 200 response carries no bundleHash, and returns
the relay-assigned bundle hash when one is present. -/
theorem c8_submit_behavior (bundle : List String) (hb : bundle ≠ [])
    (target now : Nat) (min_ts : Option Nat) (text : String) :
    (submit_params target now min_ts none).maxTimestamp = now + 420 ∧
    (submit_params target now none none).minTimestamp = 0 ∧
    (∀ (status : Nat) (parsed : Except String RpcResponse), status ≠ 200 →
      submit_bundle bundle (.resp status text parsed) = none) ∧
    (∀ r : RpcResponse, bundleHashOf r = none →
      submit_bundle bundle (.resp 200 text (.ok r)) = none) ∧
    (∀ (r : RpcResponse) (h : String), bundleHashOf r = some h → h ≠ "" →
      submit_bundle bundle (.resp 200 text (.ok r)) =
        some { bundle_hash := h, raw_result := r }) := by
  obtain ⟨a, l, rfl⟩ : ∃ a l, bundle = a :: l := by
    cases bundle with
    | nil => exact absurd rfl hb
    | cons a l => exact ⟨a, l, rfl⟩
  refine ⟨rfl, rfl, ?_, ?_, ?_⟩
  · intro status parsed hs
    have hsb : (status == 200) = false := by simp [hs]
    simp [submit_bundle, submit_bundle_body, bne, hsb]
  · intro r hr
    simp [submit_bundle, submit_bundle_body, hr, pyTruthy]
  · intro r h hr hne
    simp [submit_bundle, submit_bundle_body, hr, pyTruthy, hne]

/-- Witness for C8 at concrete inputs: submission time 1000 gives
maxTimestamp 1420; a 500 response yields None; a 200 response carrying
bundleHash "0xbeef" yields that hash. -/
theorem c8_witness :
    (submit_params 12400 1000 none none).maxTimestamp = 1000 + 420 ∧
    submit_bundle ["0xaa"] (.resp 500 "gateway error" (.ok { result := none })) = none ∧
    submit_bundle ["0xaa"] (.resp 200 "" (.ok c8Resp)) =
      some { bundle_hash := "0xbeef", raw_result := c8Resp } :=
  ⟨(c8_submit_behavior ["0xaa"] (by decide) 12400 1000 none "gateway error").1,
    (c8_submit_behavior ["0xaa"] (by decide) 12400 1000 none "gateway error").2.2.1
      500 (.ok { result := none }) (by decide),
    (c8_submit_behavior ["0xaa"] (by decide) 12400 1000 none "").2.2.2.2
      c8Resp "0xbeef" rfl (by decide)⟩

/-- C9: none of the four relay operations propagates an exception: every
exceptional environment — a raised transport or conversion error, an empty
bundle list (IndexError at the hex conversion debug log), a non-200 status or
a body that fails to parse — is returned as an error-carrying result (a
success=false/error dictionary, or None for submit) rather than raised. -/
theorem c9_fail_soft (bundle : List String) (hb : bundle ≠ []) (m text : String)
    (status : Nat) (parsed : Except String RpcResponse) (tb : Nat)
    (bn : Option Nat) (head : Nat) :
    simulate_bundle bundle (.exn m) =
      { success := false, error := some m, details := none, raw_result := none } ∧
    simulate_bundle [] (.resp status text parsed) =
      { success := false, error := some "IndexError: list index out of range",
        details := none, raw_result := none } ∧
    simulate_bundle bundle (.resp 200 text (.error m)) =
      { success := false, error := some m, details := none, raw_result := none } ∧
    (status ≠ 200 → simulate_bundle bundle (.resp status text parsed) =
      { success := false, error := some text, details := none, raw_result := none }) ∧
    submit_bundle bundle (.exn m) = none ∧
    submit_bundle [] (.resp status text parsed) = none ∧
    submit_bundle bundle (.resp 200 text (.error m)) = none ∧
    (status ≠ 200 → submit_bundle bundle (.resp status text parsed) = none) ∧
    check_flashbots_status none (.exn m) = .softError "Target block is required" ∧
    check_flashbots_status (some tb) (.exn m) = .softError m ∧
    (status ≠ 200 → check_flashbots_status (some tb) (.resp status text parsed) =
      .softError text) ∧
    check_flashbots_status (some tb) (.resp 200 text (.error m)) = .softError m ∧
    check_user_stats bn head (.exn m) = .softError m ∧
    (status ≠ 200 → check_user_stats bn head (.resp status text parsed) = .softError text) ∧
    check_user_stats bn head (.resp 200 text (.error m)) = .softError m := by
  obtain ⟨a, l, rfl⟩ : ∃ a l, bundle = a :: l := by
    cases bundle with
    | nil => exact absurd rfl hb
    | cons a l => exact ⟨a, l, rfl⟩
  have hsb : ∀ s : Nat, s ≠ 200 → (s == 200) = false := by intro s hs; simp [hs]
  refine ⟨rfl, rfl, rfl, ?_, rfl, rfl, rfl, ?_, rfl, rfl, ?_, rfl, rfl, ?_, rfl⟩
  · intro hs
    simp [simulate_bundle, simulate_bundle_body, bne, hsb status hs]
  · intro hs
    simp [submit_bundle, submit_bundle_body, bne, hsb status hs]
  · intro hs
    simp [check_flashbots_status, bne, hsb status hs]
  · intro hs
    simp [check_user_stats, bne, hsb status hs]

/-- Witness for C9 on a concrete 500 response and a concrete empty bundle:
each operation returns its soft error value. -/
theorem c9_witness :
    simulate_bundle ["0xaa"] (.resp 500 "gateway error" (.ok { result := none })) =
      { success := false, error := some "gateway error", details := none, raw_result := none } ∧
    submit_bundle ["0xaa"] (.resp 500 "gateway error" (.ok { result := none })) = none ∧
    check_flashbots_status (some 12400) (.resp 500 "gateway error" (.ok { result := none })) =
      .softError "gateway error" ∧
    check_user_stats none 100 (.resp 500 "gateway error" (.ok { result := none })) =
      .softError "gateway error" ∧
    simulate_bundle [] (.resp 500 "gateway error" (.ok { result := none })) =
      { success := false, error := some "IndexError: list index out of range",
        details := none, raw_result := none } := by
  obtain ⟨h1, h2, h3, h4, h5, h6, h7, h8, h9, h10, h11, h12, h13, h14, h15⟩ :=
    c9_fail_soft ["0xaa"] (by decide) "boom" "gateway error" 500
      (.ok { result := none }) 12400 none 100
  exact ⟨h4 (by decide), h8 (by decide), h11 (by decide), h14 (by decide), h2⟩

/-- C10: a 200 simulation response whose per-transaction results list is
empty or absent yields success = true — the all-transactions-clean check is
vacuously satisfied; the lookup resolves to the empty list whether the
"result" object is missing, its "results" field is missing, or the list is
present but empty. -/
theorem c10_vacuous_success (bundle : List String) (hb : bundle ≠ [])
    (text : String) (r : RpcResponse) (hr : bundleResults r = [])
    (g : Option Nat) (h : Option String) :
    (simulate_bundle bundle (.resp 200 text (.ok r))).success = true ∧
    bundleResults { result := none } = [] ∧
    bundleResults { result := some { totalGasUsed := g, results := none, bundleHash := h } } = [] ∧
    bundleResults
      { result := some { totalGasUsed := g, results := some [], bundleHash := h } } = [] := by
  obtain ⟨a, l, rfl⟩ : ∃ a l, bundle = a :: l := by
    cases bundle with
    | nil => exact absurd rfl hb
    | cons a l => exact ⟨a, l, rfl⟩
  refine ⟨?_, rfl, rfl, rfl⟩
  simp [simulate_bundle, simulate_bundle_body, hr]

/-- Witness for C10 on a concrete 200 response with no "result" object at
all: the simulation reports success. -/
theorem c10_witness :
    (simulate_bundle ["0xaa"] (.resp 200 "" (.ok { result := none }))).success = true ∧
    bundleResults { result := none } = [] ∧
    bundleResults
      { result := some { totalGasUsed := none, results := none, bundleHash := none } } = [] ∧
    bundleResults
      { result := some { totalGasUsed := none, results := some [], bundleHash := none } } = [] :=
  c10_vacuous_success ["0xaa"] (by decide) "" { result := none } rfl none none

end ZKarnage
